import Mathlib

/-!
Shallow embedding of the ChatGSE session dialogue controller
(`chatgse/_interface.py`).

The Streamlit session state (`st.session_state`) is modelled as an explicit
`SessionState` record threaded through the handlers.  History entries are the
one-key dicts the source appends (`{role: msg}`), modelled as `String × String`
pairs; the entry appended at line 325 of the source uses the role `"tool"`.
The external log file `chatgse-logs.txt` is modelled as the `log` field: each
`open(...).write(f"{role}: {msg}\n")` appends one line.  Calls into the
abstract conversation backend are recorded in order in the `calls` field; the
values the backend returns (API-key validation success, query responses) are
passed to the handlers as explicit arguments.  Tabular parsing
(`pd.read_csv`) is an external collaborator: the handlers take a `parse`
function mapping a file and a separator string to a data frame, of which only
the rendered (`to_markdown`) and serialized (`to_json`) forms are consumed.
-/

/-- An uploaded file handle; the controller derives tool identity solely from
its `name`. -/
structure FileRef where
  name : String
deriving DecidableEq, Repr

/-- The two consumed views of a parsed data frame (`df.to_markdown()` and
`df.to_json()`). -/
structure DataFrame where
  to_markdown : String
  to_json : String
deriving DecidableEq, Repr

/-- The token-usage record returned by `conversation.query`. -/
structure TokenUsage where
  prompt_tokens : Nat
  completion_tokens : Nat
  total_tokens : Nat
deriving DecidableEq, Repr

/-- One recorded call to the abstract conversation backend. -/
inductive BackendCall where
  | setApiKey (key user : String)
  | setUserName (name : String)
  | setupCtx (context : String)
  | setupDataInputTool (json tool : String)
  | setupDataInputManual (text : String)
  | appendUserMessage (text : String)
  | queryCall (text : String)
deriving DecidableEq, Repr

/-- The mutable per-session state (`st.session_state` plus the conversation
object's `user_name`/`context`, the log file and the recorded backend calls). -/
structure SessionState where
  input : String
  history : List (String × String)
  log : List String
  calls : List BackendCall
  user : String
  user_name : String
  context : String
  tool_data : List FileRef
  demo_tool_data : List FileRef
  tool_list : List FileRef
  read_tools : List String
  started_tool_input : Bool
  asked_for_name : Bool
  show_community_select : Bool
  error : Bool
  mode : String
  token_limit : Nat
  primary_model : String
deriving DecidableEq, Repr

/-- A fresh session state with all defaults. -/
def initialState : SessionState where
  input := ""
  history := []
  log := []
  calls := []
  user := "community"
  user_name := ""
  context := ""
  tool_data := []
  demo_tool_data := []
  tool_list := []
  read_tools := []
  started_tool_input := false
  asked_for_name := false
  show_community_select := false
  error := false
  mode := "std"
  token_limit := 0
  primary_model := "gpt-3.5-turbo"

/-- Python substring containment `need in hay` on character lists. -/
def listContainsSub (need : List Char) : List Char → Bool
  | [] => need.isEmpty
  | c :: t => need.isPrefixOf (c :: t) || listContainsSub need t

/-- Python substring containment `need in hay` on strings. -/
def strContains (hay need : String) : Bool :=
  listContainsSub need.data hay.data

/-- The fixed known-tool registry (`KNOWN_TOOLS` in the source). -/
def KNOWN_TOOLS : List String := ["decoupler", "progeny", "dorothea", "gsea"]

/-- Python `str.lower()`: lower-case every character. -/
def pyLower (s : String) : String :=
  ⟨s.data.map Char.toLower⟩

/-- Python `name.split(".")[0]`: the characters before the first dot. -/
def beforeFirstDot (s : String) : String :=
  ⟨s.data.takeWhile (fun c => c != '.')⟩

/-- `fl.name.split(".")[0].lower()`: the derived tool name of a file. -/
def derivedTool (f : FileRef) : String :=
  pyLower (beforeFirstDot f.name)

/-- The line `f"{role}: {msg}\n"` written to `chatgse-logs.txt`. -/
def renderLogLine (role msg : String) : String :=
  role ++ ": " ++ msg ++ "\n"

/-- `_history_only`: append to the history without logging. -/
def history_only (s : SessionState) (role msg : String) : SessionState :=
  { s with history := s.history ++ [(role, msg)] }

/-- `_write_and_history`: append to the history and write the matching line to
the external log. -/
def write_and_history (s : SessionState) (role msg : String) : SessionState :=
  { s with
    history := s.history ++ [(role, msg)]
    log := s.log ++ [renderLogLine role msg] }

/-- `ChatGSE.__init__` on a fresh session: record the welcome message in the
history only. -/
def chat_init (s : SessionState) : SessionState :=
  history_only s "Assistant" "Welcome to ``ChatGSE``!"

/-- The fixed prefix of the error message in `_get_response`. -/
def MODEL_ERROR_MSG : String :=
  "The model appears to have encountered an error. "

/-- Standing instructions appended to several messages
(`PLEASE_ENTER_QUESTIONS` in the source; text abridged). -/
def PLEASE_ENTER_QUESTIONS : String :=
  "The model will be with you shortly. Please enter your questions below."

/-- `_get_data_input` message when no files were uploaded (abridged). -/
def NO_FILES_MSG : String :=
  "No files detected. Please upload your files in the sidebar, or press No to continue without providing any files."

/-- `_get_data_input` message acknowledging the received files (abridged). -/
def filesReceivedMsg (tool_list : List FileRef) : String :=
  "Thank you! I have read the following " ++ toString tool_list.length
    ++ " files: " ++ String.intercalate ", " (tool_list.map (·.name)) ++ "."

/-- `_get_data_input` summary message once every file is read (abridged). -/
def ALL_READ_MSG : String :=
  "I have read all the files you provided. " ++ PLEASE_ENTER_QUESTIONS

/-- `_get_data_input` header above a rendered tool table (abridged). -/
def toolResultsMsg (tool : String) : String :=
  tool ++ " results"

/-- `_get_data_input` request for a manual description of an unknown tool
(abridged). -/
def unknownToolMsg (tool : String) : String :=
  "Sorry, " ++ tool ++ " is not among the tools I know. Please provide information about the data below."

/-- `_get_data_input` request for optional augmentation text (abridged). -/
def ASK_AUGMENT_MSG : String :=
  "Would you like to provide additional information, for instance on a contrast or experimental design? If so, please enter it below; if not, please enter no."

/-- `_get_data_file_description` acknowledgement when augmentation is skipped
(abridged). -/
def OKAY_NO_MSG : String :=
  "Okay, I will use the information from the tool without further specification."

/-- `_get_data_file_description` acknowledgement of augmentation text. -/
def THANKS_INPUT_MSG : String := "Thank you for the input!"

/-- `_get_data_input_manual` acknowledgement (abridged). -/
def MANUAL_THANKS_MSG : String :=
  "Thank you for the input. " ++ PLEASE_ENTER_QUESTIONS

/-- `_get_api_key` invalid-key message (abridged). -/
def INVALID_KEY_MSG : String :=
  "The API key you entered is not valid. Please try again."

/-- `_check_for_api_key` invalid-environment-key message (abridged). -/
def ENV_KEY_INVALID_MSG : String :=
  "The API key in your environment is not valid. Please enter a valid key."

/-- `_check_for_api_key` OpenAI key prompt (abridged). -/
def ENTER_OPENAI_KEY_MSG : String :=
  "Please enter your OpenAI API key."

/-- `_check_for_api_key` HuggingFace key prompt (abridged). -/
def ENTER_HF_KEY_MSG : String :=
  "Please enter your HuggingFace Hub API key."

/-- The ask-for-name message shared by the key handlers (abridged). -/
def ASK_NAME_MSG : String :=
  "I am the assistant of the model. We will now be going through some initial setup steps together. To get started, could you please tell me your name?"

/-- `_get_user_name` follow-up asking for the context (abridged). -/
def contextAskMsg (name : String) : String :=
  "Thank you, " ++ name ++ "! What is the context of your inquiry?"

/-- `_ask_for_data_input` file prompt (abridged). -/
def provideFilesMsg (context : String) (token_limit : Nat) : String :=
  "You have selected " ++ context ++ " as your context. Do you want to provide input files from analytic methods? The limit of the currently active model is "
    ++ toString token_limit ++ "."

/-- `_ask_for_data_input` decline hint (abridged). -/
def NO_FILES_BUTTON_MSG : String :=
  "If you do not want to provide any files, please press No."

/-- `_ask_for_data_input` message listing already-uploaded files (abridged). -/
def alreadyUploadedMsg (context : String) (files : List FileRef) : String :=
  "You have selected " ++ context ++ " as your context. I see you have already uploaded some data files: "
    ++ String.intercalate ", " (files.map (·.name)) ++ "."

/-- `_ask_for_manual_data_input` prompt (abridged). -/
def MANUAL_PROMPT_MSG : String :=
  "Please provide a list of biological data points, optionally with directional information and/or a contrast."

/-- `_try_api_key`: call `conversation.set_api_key(key, st.session_state.user)`;
the backend verdict is the explicit `success` argument. -/
def try_api_key (success : Bool) (key : String) (s : SessionState) :
    SessionState × Bool :=
  ({ s with calls := s.calls ++ [BackendCall.setApiKey key s.user] }, success)

/-- `_get_api_key`. -/
def get_api_key (success : Bool) (key : String) (s : SessionState) :
    SessionState × String :=
  let (s, ok) := try_api_key success key s
  if !ok then
    (write_and_history s "Assistant" INVALID_KEY_MSG, "getting_key")
  else
    let s :=
      if !s.asked_for_name then
        write_and_history { s with asked_for_name := true } "Assistant"
          ASK_NAME_MSG
      else s
    ({ s with show_community_select := false }, "getting_name")

/-- `_check_for_api_key`: `key` is the environment-provided key looked up for
the primary model (`none` for absent/falsy), `success` the backend verdict,
`write` the `write` keyword argument. -/
def check_for_api_key (success : Bool) (key : Option String) (write : Bool)
    (s : SessionState) : SessionState × String :=
  let s :=
    { s with
      token_limit := if s.primary_model = "gpt-3.5-turbo" then 4097 else 1000 }
  match key with
  | none =>
    if s.primary_model = "gpt-3.5-turbo" then
      ({ history_only s "Assistant" ENTER_OPENAI_KEY_MSG with
          show_community_select := true }, "getting_key")
    else
      (history_only s "Assistant" ENTER_HF_KEY_MSG, "getting_key")
  | some k =>
    let (s, ok) := try_api_key success k s
    if !ok then
      (history_only s "Assistant" ENV_KEY_INVALID_MSG, "getting_key")
    else
      let s :=
        if !s.asked_for_name then
          let s := { s with asked_for_name := true }
          if write then write_and_history s "Assistant" ASK_NAME_MSG
          else history_only s "Assistant" ASK_NAME_MSG
        else s
      ({ s with show_community_select := false }, "getting_name")

/-- `_get_user_name`: read the name from the input, set it on the backend and
ask for the context. -/
def get_user_name (s : SessionState) : SessionState × String :=
  let name := s.input
  let s :=
    { s with
      calls := s.calls ++ [BackendCall.setUserName name]
      user_name := name }
  let s := write_and_history s name name
  let s := write_and_history s "Assistant" (contextAskMsg name)
  (s, "getting_context")

/-- `_get_context`: echo the input and call `conversation.setup` with it
(the source handler has no return value). -/
def get_context (s : SessionState) : SessionState :=
  let s := write_and_history s s.user_name s.input
  { s with
    calls := s.calls ++ [BackendCall.setupCtx s.input]
    context := s.input }

/-- `_ask_for_data_input`. -/
def ask_for_data_input (s : SessionState) : SessionState × String :=
  if s.tool_data.isEmpty then
    let s := write_and_history s "Assistant"
      (provideFilesMsg s.context s.token_limit)
    (write_and_history s "Assistant" NO_FILES_BUTTON_MSG,
      "getting_data_file_input")
  else
    (write_and_history s "Assistant" (alreadyUploadedMsg s.context s.tool_data),
      "getting_data_file_input")

/-- The `for fl in st.session_state.tool_list` loop of `_get_data_input`;
falling off the end of the loop returns `none` (Python `None`). -/
def ingestLoop (parse : FileRef → String → DataFrame) :
    List FileRef → SessionState → SessionState × Option String
  | [], s => (s, none)
  | fl :: rest, s =>
    let tool := derivedTool fl
    if tool ∈ s.read_tools then ingestLoop parse rest s
    else
      let df := if strContains fl.name "tsv" then parse fl "\t" else parse fl ","
      let s := { s with read_tools := s.read_tools ++ [tool] }
      let s := write_and_history s "Assistant" (toolResultsMsg tool)
      let s := { s with history := s.history ++ [("tool", df.to_markdown)] }
      if !(KNOWN_TOOLS.any fun t => strContains fl.name t) then
        (write_and_history s "Assistant" (unknownToolMsg tool),
          some "getting_data_file_description")
      else
        let s :=
          { s with
            calls := s.calls ++
              [BackendCall.setupDataInputTool df.to_json tool] }
        (write_and_history s "Assistant" ASK_AUGMENT_MSG,
          some "getting_data_file_description")

/-- `_get_data_input`: the tool-data ingestion sub-flow.  The source's
re-initialisation `if not read_tools: read_tools = []` is the identity here
because an absent `read_tools` is modelled as `[]`. -/
def get_data_input (parse : FileRef → String → DataFrame) (s : SessionState) :
    SessionState × Option String :=
  if s.tool_data.isEmpty && !strContains s.mode "demo" then
    (write_and_history s "Assistant" NO_FILES_MSG,
      some "getting_data_file_input")
  else
    let s :=
      if !s.started_tool_input then
        let s := { s with started_tool_input := true }
        let s :=
          { s with
            tool_list :=
              if strContains s.mode "demo" then s.demo_tool_data
              else s.tool_data }
        write_and_history s "Assistant" (filesReceivedMsg s.tool_list)
      else s
    if s.read_tools.length = s.tool_list.length then
      (write_and_history s "Assistant" ALL_READ_MSG, some "chat")
    else
      ingestLoop parse s.tool_list s

/-- `_get_data_file_description`. -/
def get_data_file_description (parse : FileRef → String → DataFrame)
    (s : SessionState) : SessionState × Option String :=
  let response := s.input
  let s := { s with input := "" }
  let s := write_and_history s s.user_name response
  if pyLower response ∈ ["n", "no", "no."] then
    let s := write_and_history s "Assistant" OKAY_NO_MSG
    get_data_input parse s
  else
    let s := { s with calls := s.calls ++ [BackendCall.appendUserMessage response] }
    let s := write_and_history s "Assistant" THANKS_INPUT_MSG
    get_data_input parse s

/-- `_ask_for_manual_data_input`. -/
def ask_for_manual_data_input (s : SessionState) : SessionState × String :=
  (write_and_history s "Assistant" MANUAL_PROMPT_MSG,
    "getting_manual_data_input")

/-- `_get_data_input_manual`. -/
def get_data_input_manual (s : SessionState) : SessionState × String :=
  let s :=
    { s with calls := s.calls ++ [BackendCall.setupDataInputManual s.input] }
  let s := write_and_history s s.user_name s.input
  (write_and_history s "Assistant" MANUAL_THANKS_MSG, "chat")

/-- `_get_response`: forward `st.session_state.input` to `conversation.query`;
`response`, `token_usage` and `correction` are the values the backend returns
(a falsy `token_usage` is `none`, a falsy `correction` is `""`). -/
def get_response (response : String) (token_usage : Option TokenUsage)
    (correction : String) (s : SessionState) :
    SessionState × String × TokenUsage :=
  let s := { s with calls := s.calls ++ [BackendCall.queryCall s.input] }
  match token_usage with
  | none =>
    let msg := MODEL_ERROR_MSG ++ response
    let s := write_and_history s "Assistant" msg
    let s := { s with error := true }
    (s, response, ⟨0, 0, 0⟩)
  | some tu =>
    let s := write_and_history s s.user_name s.input
    let s :=
      if correction = "" then
        write_and_history s "ChatGSE" response
      else
        write_and_history (write_and_history s "ChatGSE" response)
          "Correcting agent" correction
    (s, response, tu)

/-! ## Helper lemmas shared by the claim theorems -/

/-- `t.history` extends `s.history`: every pre-existing entry is preserved
unchanged at its position and entries are only appended. -/
def histExtends (s t : SessionState) : Prop :=
  ∃ u, t.history = s.history ++ u

/-- `t.read_tools` extends `s.read_tools`. -/
def toolsExtends (s t : SessionState) : Prop :=
  ∃ u, t.read_tools = s.read_tools ++ u

theorem histExtends_refl (s : SessionState) : histExtends s s :=
  ⟨[], by simp⟩

theorem histExtends_trans {a b c : SessionState} (h1 : histExtends a b)
    (h2 : histExtends b c) : histExtends a c := by
  obtain ⟨u, hu⟩ := h1
  obtain ⟨v, hv⟩ := h2
  exact ⟨u ++ v, by rw [hv, hu, List.append_assoc]⟩

theorem toolsExtends_refl (s : SessionState) : toolsExtends s s :=
  ⟨[], by simp⟩

theorem toolsExtends_trans {a b c : SessionState} (h1 : toolsExtends a b)
    (h2 : toolsExtends b c) : toolsExtends a c := by
  obtain ⟨u, hu⟩ := h1
  obtain ⟨v, hv⟩ := h2
  exact ⟨u ++ v, by rw [hv, hu, List.append_assoc]⟩

/-! ## C1: error branch of the query pipeline -/

/-- C1: in the `Chatting` query pipeline, when the backend returns an
absent/falsy token usage, the controller appends exactly one error message —
the fixed prefix concatenated with the raw response text — (in particular the
user's message is not echoed), sets the error flag, and returns the response
together with an all-zero token-usage record. -/
theorem get_response_error_branch (response correction : String)
    (s : SessionState) :
    (get_response response none correction s).1.history =
      s.history ++ [("Assistant", MODEL_ERROR_MSG ++ response)] ∧
    (get_response response none correction s).1.error = true ∧
    (get_response response none correction s).2 =
      (response, TokenUsage.mk 0 0 0) :=
  ⟨rfl, rfl, rfl⟩

/-! ## C8: ordering of messages on a successful query -/

/-- C8: on a successful query (token usage present) the controller appends, in
order, the echoed user message and the assistant response, followed by a
correction message from the distinct speaker "Correcting agent" exactly when
the correction text is non-empty. -/
theorem get_response_success_order (response correction : String)
    (tu : TokenUsage) (s : SessionState) :
    (get_response response (some tu) correction s).1.history =
      s.history ++ [(s.user_name, s.input), ("ChatGSE", response)] ++
        (if correction = "" then [] else [("Correcting agent", correction)]) ∧
    (get_response response (some tu) correction s).2 = (response, tu) ∧
    ("Correcting agent" : String) ≠ "ChatGSE" := by
  refine ⟨?_, rfl, by decide⟩
  by_cases h : correction = "" <;>
    simp [get_response, write_and_history, h, List.append_assoc]

/-! ## C9: correspondence between the history and the external log -/

/-- C9 counterexample: the welcome message recorded by `__init__` is appended
to the history with no corresponding line in the external log, so the log does
not mirror every history entry. -/
theorem history_log_welcome_counterexample :
    ¬ ((chat_init initialState).log =
      (chat_init initialState).history.map fun e => renderLogLine e.1 e.2) := by
  decide

/-- C9 amended: entries appended through `_write_and_history` produce the
matching log line `"{speaker}: {text}\n"` in history order; entries appended
through `_history_only` leave the external log unchanged; and the direct
tool-output append of the ingestion step likewise produces no log line — on
the first unread file the history gains three entries including the `"tool"`
entry while the log gains exactly the two lines of the surrounding
`_write_and_history` messages, in matching order.  The log therefore mirrors
only the `_write_and_history` subsequence of the history. -/
theorem history_log_write_only_correspondence :
    (∀ (s : SessionState) (role msg : String),
      (write_and_history s role msg).history = s.history ++ [(role, msg)] ∧
      (write_and_history s role msg).log =
        s.log ++ [renderLogLine role msg]) ∧
    (∀ (s : SessionState) (role msg : String),
      (history_only s role msg).history = s.history ++ [(role, msg)] ∧
      (history_only s role msg).log = s.log) ∧
    (∀ (parse : FileRef → String → DataFrame) (s : SessionState)
        (fl : FileRef) (rest : List FileRef),
      derivedTool fl ∉ s.read_tools →
      (ingestLoop parse (fl :: rest) s).1.history =
        s.history ++
          [("Assistant", toolResultsMsg (derivedTool fl)),
           ("tool", (if strContains fl.name "tsv" then parse fl "\t"
              else parse fl ",").to_markdown),
           ("Assistant",
             if KNOWN_TOOLS.any (fun t => strContains fl.name t) then
               ASK_AUGMENT_MSG
             else unknownToolMsg (derivedTool fl))] ∧
      (ingestLoop parse (fl :: rest) s).1.log =
        s.log ++
          [renderLogLine "Assistant" (toolResultsMsg (derivedTool fl)),
           renderLogLine "Assistant"
             (if KNOWN_TOOLS.any (fun t => strContains fl.name t) then
               ASK_AUGMENT_MSG
             else unknownToolMsg (derivedTool fl))]) := by
  refine ⟨fun s role msg => ⟨rfl, rfl⟩, fun s role msg => ⟨rfl, rfl⟩,
    fun parse s fl rest h => ?_⟩
  by_cases hk : (KNOWN_TOOLS.any fun t => strContains fl.name t) = true <;>
    simp [ingestLoop, h, hk, write_and_history, List.append_assoc]

/-- C9 amended, witness: ingesting the unread file `gsea.csv` appends three
history entries — among them the `"tool"` entry — but only the two
`_write_and_history` log lines. -/
theorem history_log_write_only_correspondence_witness :
    derivedTool ⟨"gsea.csv"⟩ ∉ initialState.read_tools ∧
    ((ingestLoop fileParse [⟨"gsea.csv"⟩] initialState).1.history =
      initialState.history ++
        [("Assistant", toolResultsMsg (derivedTool ⟨"gsea.csv"⟩)),
         ("tool", (if strContains (FileRef.mk "gsea.csv").name "tsv" then
            fileParse ⟨"gsea.csv"⟩ "\t"
            else fileParse ⟨"gsea.csv"⟩ ",").to_markdown),
         ("Assistant",
           if KNOWN_TOOLS.any
              (fun t => strContains (FileRef.mk "gsea.csv").name t) then
             ASK_AUGMENT_MSG
           else unknownToolMsg (derivedTool ⟨"gsea.csv"⟩))] ∧
    (ingestLoop fileParse [⟨"gsea.csv"⟩] initialState).1.log =
      initialState.log ++
        [renderLogLine "Assistant" (toolResultsMsg (derivedTool ⟨"gsea.csv"⟩)),
         renderLogLine "Assistant"
           (if KNOWN_TOOLS.any
              (fun t => strContains (FileRef.mk "gsea.csv").name t) then
             ASK_AUGMENT_MSG
           else unknownToolMsg (derivedTool ⟨"gsea.csv"⟩))]) :=
  ⟨by decide,
    history_log_write_only_correspondence.2.2 fileParse initialState
      ⟨"gsea.csv"⟩ [] (by decide)⟩

/-! ## C3: the negative-acknowledgement set of the description handler -/

/-- C3: the description handler skips augmentation exactly when the
lower-cased input is one of "n", "no", "no." — otherwise the input is
forwarded to the backend as an `appendUserMessage` augmentation call — and in
both branches the handler re-invokes the ingestion sub-flow. -/
theorem data_file_description_negative_ack
    (parse : FileRef → String → DataFrame) (s : SessionState) :
    ∃ s1 : SessionState,
      get_data_file_description parse s = get_data_input parse s1 ∧
      s1.calls = (if pyLower s.input ∈ ["n", "no", "no."] then s.calls
        else s.calls ++ [BackendCall.appendUserMessage s.input]) := by
  unfold get_data_file_description
  by_cases h : pyLower s.input ∈ ["n", "no", "no."]
  · rw [if_pos h]
    refine ⟨_, rfl, ?_⟩
    rw [if_pos h]
    rfl
  · rw [if_neg h]
    refine ⟨_, rfl, ?_⟩
    rw [if_neg h]
    rfl

/-! ## C2: the known-tool match is case-sensitive -/

/-- A concrete tabular collaborator used by the closed witnesses. -/
def fileParse : FileRef → String → DataFrame :=
  fun f sep => ⟨f.name ++ sep, f.name ++ sep⟩

/-- An upload whose name contains the registry entry "decoupler" only up to
letter case. -/
def caseFile : FileRef := ⟨"DECOUPLER_results.csv"⟩

/-- A session about to ingest `caseFile`. -/
def caseState : SessionState :=
  { initialState with
    tool_data := [caseFile]
    tool_list := [caseFile]
    started_tool_input := true }

/-- C2 counterexample: `caseFile.name` contains the known tool name
"decoupler" case-insensitively, yet ingestion takes the unknown-tool path: no
`setupDataInputTool` call is made and a manual description is requested, so
the match is not case-insensitive. -/
theorem known_tool_match_not_case_insensitive :
    strContains (pyLower caseFile.name) "decoupler" = true ∧
    (get_data_input fileParse caseState).1.calls = [] ∧
    (get_data_input fileParse caseState).1.history.getLast? =
      some ("Assistant", unknownToolMsg "decoupler_results") :=
  ⟨by decide, by decide, by decide⟩

/-- C2 amended: for the first unread file, the known/unknown decision is made
by case-sensitive substring containment of a (lower-case) registry name in the
raw file name: when some registry name occurs verbatim in the file name,
exactly one `setupDataInputTool` call is made and augmentation is requested;
otherwise no backend call is made and a manual description is requested. -/
theorem known_tool_match_case_sensitive
    (parse : FileRef → String → DataFrame) (s : SessionState)
    (fl : FileRef) (rest : List FileRef)
    (h : derivedTool fl ∉ s.read_tools) :
    (ingestLoop parse (fl :: rest) s).1.calls =
      s.calls ++
        (if KNOWN_TOOLS.any (fun t => strContains fl.name t) then
          [BackendCall.setupDataInputTool
            (if strContains fl.name "tsv" then parse fl "\t"
              else parse fl ",").to_json (derivedTool fl)]
        else []) ∧
    (ingestLoop parse (fl :: rest) s).1.history.getLast? =
      some ("Assistant",
        if KNOWN_TOOLS.any (fun t => strContains fl.name t) then ASK_AUGMENT_MSG
        else unknownToolMsg (derivedTool fl)) ∧
    (ingestLoop parse (fl :: rest) s).2 =
      some "getting_data_file_description" := by
  by_cases hk : (KNOWN_TOOLS.any fun t => strContains fl.name t) = true <;>
    simp [ingestLoop, h, hk, write_and_history, List.getLast?_concat]

/-- C2 amended, witness: the file `progeny.tsv` contains the registry name
"progeny" verbatim, so ingestion makes the backend call and requests
augmentation. -/
theorem known_tool_match_case_sensitive_witness :
    derivedTool ⟨"progeny.tsv"⟩ ∉ initialState.read_tools ∧
    ((ingestLoop fileParse [⟨"progeny.tsv"⟩] initialState).1.calls =
      initialState.calls ++
        (if KNOWN_TOOLS.any
            (fun t => strContains (FileRef.mk "progeny.tsv").name t) then
          [BackendCall.setupDataInputTool
            (if strContains (FileRef.mk "progeny.tsv").name "tsv" then
              fileParse ⟨"progeny.tsv"⟩ "\t"
              else fileParse ⟨"progeny.tsv"⟩ ",").to_json
            (derivedTool ⟨"progeny.tsv"⟩)]
        else []) ∧
    (ingestLoop fileParse [⟨"progeny.tsv"⟩] initialState).1.history.getLast? =
      some ("Assistant",
        if KNOWN_TOOLS.any
            (fun t => strContains (FileRef.mk "progeny.tsv").name t) then
          ASK_AUGMENT_MSG
        else unknownToolMsg (derivedTool ⟨"progeny.tsv"⟩)) ∧
    (ingestLoop fileParse [⟨"progeny.tsv"⟩] initialState).2 =
      some "getting_data_file_description") :=
  ⟨by decide,
    known_tool_match_case_sensitive fileParse initialState ⟨"progeny.tsv"⟩ []
      (by decide)⟩

/-! ## C10: duplicate derived tool names stall the ingestion sub-flow -/

/-- C10: when the tool list holds two files with the same derived tool name
and the first has been ingested, re-invoking the ingestion sub-flow skips
every file, appends nothing, calls no backend operation and returns no
next-state token at all: the state is returned unchanged with `none`. -/
theorem duplicate_tool_names_stall
    (parse : FileRef → String → DataFrame) (s : SessionState)
    (f1 f2 : FileRef)
    (hlist : s.tool_list = [f1, f2])
    (heq : derivedTool f1 = derivedTool f2)
    (hread : s.read_tools = [derivedTool f1])
    (hstart : s.started_tool_input = true)
    (hdata : s.tool_data ≠ []) :
    get_data_input parse s = (s, none) := by
  obtain ⟨a, l, hcons⟩ := List.exists_cons_of_ne_nil hdata
  simp [get_data_input, ingestLoop, hcons, hstart, hread, hlist, heq]

/-- A session whose two uploads share the derived tool name "a", the first
already ingested. -/
def dupState : SessionState :=
  { initialState with
    tool_data := [⟨"a.csv"⟩]
    tool_list := [⟨"a.csv"⟩, ⟨"a.txt"⟩]
    read_tools := ["a"]
    started_tool_input := true }

/-- C10 witness at a concrete session. -/
theorem duplicate_tool_names_stall_witness :
    (dupState.tool_list = [FileRef.mk "a.csv", FileRef.mk "a.txt"] ∧
     derivedTool ⟨"a.csv"⟩ = derivedTool ⟨"a.txt"⟩ ∧
     dupState.read_tools = [derivedTool ⟨"a.csv"⟩] ∧
     dupState.started_tool_input = true ∧
     dupState.tool_data ≠ []) ∧
    get_data_input fileParse dupState = (dupState, none) :=
  ⟨⟨by decide, by decide, by decide, by decide, by decide⟩,
    duplicate_tool_names_stall fileParse dupState ⟨"a.csv"⟩ ⟨"a.txt"⟩
      (by decide) (by decide) (by decide) (by decide) (by decide)⟩

/-! ## C4 and C5: the ingestion sub-flow -/

theorem ingestLoop_skip (parse : FileRef → String → DataFrame)
    (pre fs : List FileRef) (s : SessionState)
    (hpre : ∀ f ∈ pre, derivedTool f ∈ s.read_tools) :
    ingestLoop parse (pre ++ fs) s = ingestLoop parse fs s := by
  induction pre with
  | nil => rfl
  | cons a t ih =>
    have ha : derivedTool a ∈ s.read_tools := hpre a (by simp)
    have ht : ∀ f ∈ t, derivedTool f ∈ s.read_tools :=
      fun f hf => hpre f (by simp [hf])
    simpa [ingestLoop, ha] using ih ht

theorem get_data_input_loop (parse : FileRef → String → DataFrame)
    (s : SessionState) (hdata : s.tool_data ≠ [])
    (hstart : s.started_tool_input = true)
    (hlen : s.read_tools.length ≠ s.tool_list.length) :
    get_data_input parse s = ingestLoop parse s.tool_list s := by
  obtain ⟨a, l, hc⟩ := List.exists_cons_of_ne_nil hdata
  simp [get_data_input, hc, hstart, hlen]

/-- C4: on an invocation of the ingestion sub-flow with at least one unread
file, the files are visited in order, every already-read file is skipped, and
the first unread file `fl` is parsed with tab separator exactly when its name
contains "tsv" (comma otherwise); exactly one `"tool"` history entry is
appended for it, its derived tool name is appended to `read_tools`, and
exactly one `setupDataInputTool` call is made when the tool is known, zero
otherwise. -/
theorem ingestion_first_unread_step
    (parse : FileRef → String → DataFrame) (s : SessionState)
    (pre : List FileRef) (fl : FileRef) (post : List FileRef)
    (hdata : s.tool_data ≠ [])
    (hstart : s.started_tool_input = true)
    (hlist : s.tool_list = pre ++ fl :: post)
    (hpre : ∀ f ∈ pre, derivedTool f ∈ s.read_tools)
    (hfl : derivedTool fl ∉ s.read_tools)
    (hnodupR : s.read_tools.Nodup)
    (hsub : ∀ x ∈ s.read_tools, x ∈ s.tool_list.map derivedTool) :
    (get_data_input parse s).1.read_tools =
      s.read_tools ++ [derivedTool fl] ∧
    (get_data_input parse s).1.history =
      s.history ++
        [("Assistant", toolResultsMsg (derivedTool fl)),
         ("tool", (if strContains fl.name "tsv" then parse fl "\t"
            else parse fl ",").to_markdown),
         ("Assistant",
           if KNOWN_TOOLS.any (fun t => strContains fl.name t) then
             ASK_AUGMENT_MSG
           else unknownToolMsg (derivedTool fl))] ∧
    (get_data_input parse s).1.calls =
      s.calls ++
        (if KNOWN_TOOLS.any (fun t => strContains fl.name t) then
          [BackendCall.setupDataInputTool
            (if strContains fl.name "tsv" then parse fl "\t"
              else parse fl ",").to_json (derivedTool fl)]
        else []) ∧
    (get_data_input parse s).2 = some "getting_data_file_description" := by
  have hmem : derivedTool fl ∈ s.tool_list.map derivedTool := by
    rw [hlist]
    exact List.mem_map_of_mem _ (by simp)
  have hnd : (derivedTool fl :: s.read_tools).Nodup :=
    List.nodup_cons.mpr ⟨hfl, hnodupR⟩
  have hsubc : (derivedTool fl :: s.read_tools) ⊆
      s.tool_list.map derivedTool := by
    intro x hx
    rcases List.mem_cons.mp hx with h | h
    · exact h ▸ hmem
    · exact hsub x h
  have hle := (List.subperm_of_subset hnd hsubc).length_le
  simp only [List.length_cons, List.length_map] at hle
  have hlen : s.read_tools.length ≠ s.tool_list.length := by omega
  have hred : get_data_input parse s = ingestLoop parse (fl :: post) s := by
    rw [get_data_input_loop parse s hdata hstart hlen, hlist,
      ingestLoop_skip parse pre (fl :: post) s hpre]
  rw [hred]
  by_cases hk : (KNOWN_TOOLS.any fun t => strContains fl.name t) = true <;>
    simp [ingestLoop, hfl, hk, write_and_history, List.append_assoc]

/-- A session with one already-read upload and one unread known tsv upload. -/
def stepState : SessionState :=
  { initialState with
    tool_data := [⟨"done.csv"⟩, ⟨"progeny.tsv"⟩]
    tool_list := [⟨"done.csv"⟩, ⟨"progeny.tsv"⟩]
    read_tools := ["done"]
    started_tool_input := true }

/-- C4 witness at a concrete session: the read file is skipped and the unread
`progeny.tsv` file is ingested with the tab separator. -/
theorem ingestion_first_unread_step_witness :
    (stepState.tool_data ≠ [] ∧
     stepState.started_tool_input = true ∧
     stepState.tool_list =
        [FileRef.mk "done.csv"] ++ FileRef.mk "progeny.tsv" :: [] ∧
     (∀ f ∈ [FileRef.mk "done.csv"], derivedTool f ∈ stepState.read_tools) ∧
     derivedTool ⟨"progeny.tsv"⟩ ∉ stepState.read_tools ∧
     stepState.read_tools.Nodup ∧
     (∀ x ∈ stepState.read_tools,
        x ∈ stepState.tool_list.map derivedTool)) ∧
    ((get_data_input fileParse stepState).1.read_tools =
      stepState.read_tools ++ [derivedTool ⟨"progeny.tsv"⟩] ∧
    (get_data_input fileParse stepState).1.history =
      stepState.history ++
        [("Assistant", toolResultsMsg (derivedTool ⟨"progeny.tsv"⟩)),
         ("tool", (if strContains (FileRef.mk "progeny.tsv").name "tsv" then
            fileParse ⟨"progeny.tsv"⟩ "\t"
            else fileParse ⟨"progeny.tsv"⟩ ",").to_markdown),
         ("Assistant",
           if KNOWN_TOOLS.any
              (fun t => strContains (FileRef.mk "progeny.tsv").name t) then
             ASK_AUGMENT_MSG
           else unknownToolMsg (derivedTool ⟨"progeny.tsv"⟩))] ∧
    (get_data_input fileParse stepState).1.calls =
      stepState.calls ++
        (if KNOWN_TOOLS.any
            (fun t => strContains (FileRef.mk "progeny.tsv").name t) then
          [BackendCall.setupDataInputTool
            (if strContains (FileRef.mk "progeny.tsv").name "tsv" then
              fileParse ⟨"progeny.tsv"⟩ "\t"
              else fileParse ⟨"progeny.tsv"⟩ ",").to_json
            (derivedTool ⟨"progeny.tsv"⟩)]
        else []) ∧
    (get_data_input fileParse stepState).2 =
      some "getting_data_file_description") :=
  ⟨⟨by decide, by decide, by decide, by decide, by decide, by decide,
      by decide⟩,
    ingestion_first_unread_step fileParse stepState [⟨"done.csv"⟩]
      ⟨"progeny.tsv"⟩ [] (by decide) (by decide) (by decide) (by decide)
      (by decide) (by decide) (by decide)⟩

/-- C5: re-invoking the ingestion sub-flow when every file of the tool list is
already read (under the data-model invariants: no duplicate derived names,
`read_tools` duplicate-free and drawn from the derived names) appends the
summary message only, returns the `"chat"` state token, appends no `"tool"`
entry and makes no further backend call; `read_tools` is unchanged. -/
theorem ingestion_all_read_idempotent
    (parse : FileRef → String → DataFrame) (s : SessionState)
    (hdata : s.tool_data ≠ [])
    (hstart : s.started_tool_input = true)
    (hall : ∀ f ∈ s.tool_list, derivedTool f ∈ s.read_tools)
    (hnodupR : s.read_tools.Nodup)
    (hnodupT : (s.tool_list.map derivedTool).Nodup)
    (hsub : ∀ x ∈ s.read_tools, x ∈ s.tool_list.map derivedTool) :
    (get_data_input parse s).2 = some "chat" ∧
    (get_data_input parse s).1.history =
      s.history ++ [("Assistant", ALL_READ_MSG)] ∧
    (get_data_input parse s).1.calls = s.calls ∧
    (get_data_input parse s).1.read_tools = s.read_tools := by
  have h1 : s.read_tools.length ≤ (s.tool_list.map derivedTool).length :=
    (List.subperm_of_subset hnodupR fun x hx => hsub x hx).length_le
  have h2 : (s.tool_list.map derivedTool).length ≤ s.read_tools.length := by
    refine (List.subperm_of_subset hnodupT ?_).length_le
    intro x hx
    obtain ⟨f, hf, rfl⟩ := List.mem_map.mp hx
    exact hall f hf
  have hlen : s.read_tools.length = s.tool_list.length := by
    have := le_antisymm h1 h2
    simpa using this
  obtain ⟨a, l, hc⟩ := List.exists_cons_of_ne_nil hdata
  simp [get_data_input, hc, hstart, hlen, write_and_history]

/-- A session whose single upload has already been read. -/
def allReadState : SessionState :=
  { initialState with
    tool_data := [⟨"progeny.tsv"⟩]
    tool_list := [⟨"progeny.tsv"⟩]
    read_tools := ["progeny"]
    started_tool_input := true }

/-- C5 witness at a concrete session. -/
theorem ingestion_all_read_idempotent_witness :
    (allReadState.tool_data ≠ [] ∧
     allReadState.started_tool_input = true ∧
     (∀ f ∈ allReadState.tool_list,
        derivedTool f ∈ allReadState.read_tools) ∧
     allReadState.read_tools.Nodup ∧
     (allReadState.tool_list.map derivedTool).Nodup ∧
     (∀ x ∈ allReadState.read_tools,
        x ∈ allReadState.tool_list.map derivedTool)) ∧
    ((get_data_input fileParse allReadState).2 = some "chat" ∧
    (get_data_input fileParse allReadState).1.history =
      allReadState.history ++ [("Assistant", ALL_READ_MSG)] ∧
    (get_data_input fileParse allReadState).1.calls = allReadState.calls ∧
    (get_data_input fileParse allReadState).1.read_tools =
      allReadState.read_tools) :=
  ⟨⟨by decide, by decide, by decide, by decide, by decide, by decide⟩,
    ingestion_all_read_idempotent fileParse allReadState (by decide)
      (by decide) (by decide) (by decide) (by decide) (by decide)⟩

/-! ## C6: the history is append-only -/

theorem histExtends_of_hist_eq {s t : SessionState}
    (h : t.history = s.history) : histExtends s t :=
  ⟨[], by simp [h]⟩

theorem histExtends_write {s t : SessionState} (h : histExtends s t)
    (r m : String) : histExtends s (write_and_history t r m) :=
  histExtends_trans h ⟨[(r, m)], rfl⟩

theorem histExtends_only {s t : SessionState} (h : histExtends s t)
    (r m : String) : histExtends s (history_only t r m) :=
  histExtends_trans h ⟨[(r, m)], rfl⟩

theorem check_for_api_key_histExtends (ok : Bool) (key : Option String)
    (w : Bool) (s : SessionState) :
    histExtends s (check_for_api_key ok key w s).1 := by
  unfold check_for_api_key try_api_key
  rcases key with _ | k <;> dsimp only <;> repeat' split
  all_goals
    first
      | exact histExtends_only (histExtends_of_hist_eq rfl) _ _
      | exact histExtends_write (histExtends_of_hist_eq rfl) _ _
      | exact histExtends_of_hist_eq rfl

theorem get_api_key_histExtends (ok : Bool) (key : String)
    (s : SessionState) : histExtends s (get_api_key ok key s).1 := by
  unfold get_api_key try_api_key
  dsimp only
  repeat' split
  all_goals
    first
      | exact histExtends_write (histExtends_of_hist_eq rfl) _ _
      | exact histExtends_of_hist_eq rfl

theorem get_user_name_histExtends (s : SessionState) :
    histExtends s (get_user_name s).1 :=
  histExtends_write (histExtends_write (histExtends_of_hist_eq rfl) _ _) _ _

theorem get_context_histExtends (s : SessionState) :
    histExtends s (get_context s) :=
  histExtends_trans
    (histExtends_write (histExtends_of_hist_eq rfl) s.user_name s.input)
    (histExtends_of_hist_eq rfl)

theorem ask_for_data_input_histExtends (s : SessionState) :
    histExtends s (ask_for_data_input s).1 := by
  unfold ask_for_data_input
  split
  · exact histExtends_write
      (histExtends_write (histExtends_of_hist_eq rfl) _ _) _ _
  · exact histExtends_write (histExtends_of_hist_eq rfl) _ _

theorem ask_for_manual_data_input_histExtends (s : SessionState) :
    histExtends s (ask_for_manual_data_input s).1 :=
  histExtends_write (histExtends_of_hist_eq rfl) _ _

theorem get_data_input_manual_histExtends (s : SessionState) :
    histExtends s (get_data_input_manual s).1 :=
  histExtends_write
    (histExtends_write
      (histExtends_trans (histExtends_of_hist_eq rfl)
        (histExtends_of_hist_eq rfl)) _ _) _ _

theorem get_response_histExtends (r : String) (tu : Option TokenUsage)
    (c : String) (s : SessionState) :
    histExtends s (get_response r tu c s).1 := by
  unfold get_response
  rcases tu with _ | tu
  · exact histExtends_write (histExtends_of_hist_eq rfl) _ _
  · dsimp only
    split
    · exact histExtends_write
        (histExtends_write (histExtends_of_hist_eq rfl) _ _) _ _
    · exact histExtends_write
        (histExtends_write
          (histExtends_write (histExtends_of_hist_eq rfl) _ _) _ _) _ _

theorem ingestLoop_histExtends (parse : FileRef → String → DataFrame) :
    ∀ (files : List FileRef) (s : SessionState),
      histExtends s (ingestLoop parse files s).1 := by
  intro files
  induction files with
  | nil => exact fun s => histExtends_of_hist_eq rfl
  | cons fl rest ih =>
    intro s
    by_cases h : derivedTool fl ∈ s.read_tools
    · rw [show ingestLoop parse (fl :: rest) s = ingestLoop parse rest s from
        by simp [ingestLoop, h]]
      exact ih s
    · unfold histExtends
      by_cases hk : (KNOWN_TOOLS.any fun t => strContains fl.name t) = true <;>
        simp [ingestLoop, h, hk, write_and_history, List.append_assoc]

theorem get_data_input_histExtends (parse : FileRef → String → DataFrame)
    (s : SessionState) : histExtends s (get_data_input parse s).1 := by
  unfold get_data_input
  split
  · exact histExtends_write (histExtends_of_hist_eq rfl) _ _
  · cases hst : s.started_tool_input <;> simp only [hst] <;> simp <;>
      repeat' split
    all_goals
      first
        | exact histExtends_write
            (histExtends_write (histExtends_of_hist_eq rfl) _ _) _ _
        | exact histExtends_write (histExtends_of_hist_eq rfl) _ _
        | exact histExtends_trans
            (histExtends_write (histExtends_of_hist_eq rfl) _ _)
            (ingestLoop_histExtends parse _ _)
        | exact ingestLoop_histExtends parse _ _

theorem get_data_file_description_histExtends
    (parse : FileRef → String → DataFrame) (s : SessionState) :
    histExtends s (get_data_file_description parse s).1 := by
  by_cases h : pyLower s.input ∈ ["n", "no", "no."] <;>
    simp only [get_data_file_description, h, if_true, if_false, ite_true,
      ite_false]
  · exact histExtends_trans
      (histExtends_write
        (histExtends_write (histExtends_of_hist_eq rfl) _ _) _ _)
      (get_data_input_histExtends parse _)
  · exact histExtends_trans
      (histExtends_write
        (histExtends_trans
          (histExtends_write (histExtends_of_hist_eq rfl) _ _)
          (histExtends_of_hist_eq rfl)) _ _)
      (get_data_input_histExtends parse _)

/-- C6: across every controller operation — API-key handling, name and
context collection, the data-file prompts, ingestion, description handling,
manual input and the query pipeline — the history only ever grows: the
resulting history is the original history with entries appended, so every
pre-existing entry is preserved unchanged at its position. -/
theorem history_append_only :
    (∀ (ok : Bool) (key : Option String) (w : Bool) (s : SessionState),
      histExtends s (check_for_api_key ok key w s).1) ∧
    (∀ (ok : Bool) (key : String) (s : SessionState),
      histExtends s (get_api_key ok key s).1) ∧
    (∀ s : SessionState, histExtends s (get_user_name s).1) ∧
    (∀ s : SessionState, histExtends s (get_context s)) ∧
    (∀ s : SessionState, histExtends s (ask_for_data_input s).1) ∧
    (∀ (parse : FileRef → String → DataFrame) (s : SessionState),
      histExtends s (get_data_input parse s).1) ∧
    (∀ (parse : FileRef → String → DataFrame) (s : SessionState),
      histExtends s (get_data_file_description parse s).1) ∧
    (∀ s : SessionState, histExtends s (ask_for_manual_data_input s).1) ∧
    (∀ s : SessionState, histExtends s (get_data_input_manual s).1) ∧
    (∀ (r : String) (tu : Option TokenUsage) (c : String) (s : SessionState),
      histExtends s (get_response r tu c s).1) :=
  ⟨check_for_api_key_histExtends, get_api_key_histExtends,
    get_user_name_histExtends, get_context_histExtends,
    ask_for_data_input_histExtends, get_data_input_histExtends,
    get_data_file_description_histExtends,
    ask_for_manual_data_input_histExtends, get_data_input_manual_histExtends,
    get_response_histExtends⟩

/-! ## C7: read_tools only ever grows -/

theorem toolsExtends_of_eq {s t : SessionState}
    (h : t.read_tools = s.read_tools) : toolsExtends s t :=
  ⟨[], by simp [h]⟩

theorem check_for_api_key_toolsExtends (ok : Bool) (key : Option String)
    (w : Bool) (s : SessionState) :
    toolsExtends s (check_for_api_key ok key w s).1 := by
  unfold check_for_api_key try_api_key
  rcases key with _ | k <;> dsimp only <;> repeat' split
  all_goals exact toolsExtends_of_eq rfl

theorem get_api_key_toolsExtends (ok : Bool) (key : String)
    (s : SessionState) : toolsExtends s (get_api_key ok key s).1 := by
  unfold get_api_key try_api_key
  dsimp only
  repeat' split
  all_goals exact toolsExtends_of_eq rfl

theorem get_user_name_toolsExtends (s : SessionState) :
    toolsExtends s (get_user_name s).1 :=
  toolsExtends_of_eq rfl

theorem get_context_toolsExtends (s : SessionState) :
    toolsExtends s (get_context s) :=
  toolsExtends_of_eq rfl

theorem ask_for_data_input_toolsExtends (s : SessionState) :
    toolsExtends s (ask_for_data_input s).1 := by
  unfold ask_for_data_input
  split
  all_goals exact toolsExtends_of_eq rfl

theorem ask_for_manual_data_input_toolsExtends (s : SessionState) :
    toolsExtends s (ask_for_manual_data_input s).1 :=
  toolsExtends_of_eq rfl

theorem get_data_input_manual_toolsExtends (s : SessionState) :
    toolsExtends s (get_data_input_manual s).1 :=
  toolsExtends_of_eq rfl

theorem get_response_toolsExtends (r : String) (tu : Option TokenUsage)
    (c : String) (s : SessionState) :
    toolsExtends s (get_response r tu c s).1 := by
  unfold get_response
  rcases tu with _ | tu <;> dsimp only <;> repeat' split
  all_goals exact toolsExtends_of_eq rfl

theorem ingestLoop_toolsExtends (parse : FileRef → String → DataFrame) :
    ∀ (files : List FileRef) (s : SessionState),
      toolsExtends s (ingestLoop parse files s).1 := by
  intro files
  induction files with
  | nil => exact fun s => toolsExtends_of_eq rfl
  | cons fl rest ih =>
    intro s
    by_cases h : derivedTool fl ∈ s.read_tools
    · rw [show ingestLoop parse (fl :: rest) s = ingestLoop parse rest s from
        by simp [ingestLoop, h]]
      exact ih s
    · unfold toolsExtends
      by_cases hk : (KNOWN_TOOLS.any fun t => strContains fl.name t) = true <;>
        simp [ingestLoop, h, hk, write_and_history]

theorem get_data_input_toolsExtends (parse : FileRef → String → DataFrame)
    (s : SessionState) : toolsExtends s (get_data_input parse s).1 := by
  unfold get_data_input
  split
  · exact toolsExtends_of_eq rfl
  · cases hst : s.started_tool_input <;> simp only [hst] <;> simp <;>
      repeat' split
    all_goals
      first
        | exact toolsExtends_of_eq rfl
        | exact toolsExtends_trans (toolsExtends_of_eq rfl)
            (ingestLoop_toolsExtends parse _ _)

theorem get_data_file_description_toolsExtends
    (parse : FileRef → String → DataFrame) (s : SessionState) :
    toolsExtends s (get_data_file_description parse s).1 := by
  by_cases h : pyLower s.input ∈ ["n", "no", "no."] <;>
    simp only [get_data_file_description, h, if_true, if_false, ite_true,
      ite_false] <;>
    exact toolsExtends_trans (toolsExtends_of_eq rfl)
      (get_data_input_toolsExtends parse _)

/-- C7: across every controller operation, the `read_tools` collection only
ever grows — the resulting collection is the original with names appended —
so a tool name present before an operation (including a declined or augmented
description step) is still present afterwards. -/
theorem read_tools_monotone :
    (∀ (ok : Bool) (key : Option String) (w : Bool) (s : SessionState),
      toolsExtends s (check_for_api_key ok key w s).1) ∧
    (∀ (ok : Bool) (key : String) (s : SessionState),
      toolsExtends s (get_api_key ok key s).1) ∧
    (∀ s : SessionState, toolsExtends s (get_user_name s).1) ∧
    (∀ s : SessionState, toolsExtends s (get_context s)) ∧
    (∀ s : SessionState, toolsExtends s (ask_for_data_input s).1) ∧
    (∀ (parse : FileRef → String → DataFrame) (s : SessionState),
      toolsExtends s (get_data_input parse s).1) ∧
    (∀ (parse : FileRef → String → DataFrame) (s : SessionState),
      toolsExtends s (get_data_file_description parse s).1) ∧
    (∀ s : SessionState, toolsExtends s (ask_for_manual_data_input s).1) ∧
    (∀ s : SessionState, toolsExtends s (get_data_input_manual s).1) ∧
    (∀ (r : String) (tu : Option TokenUsage) (c : String) (s : SessionState),
      toolsExtends s (get_response r tu c s).1) :=
  ⟨check_for_api_key_toolsExtends, get_api_key_toolsExtends,
    get_user_name_toolsExtends, get_context_toolsExtends,
    ask_for_data_input_toolsExtends, get_data_input_toolsExtends,
    get_data_file_description_toolsExtends,
    ask_for_manual_data_input_toolsExtends,
    get_data_input_manual_toolsExtends, get_response_toolsExtends⟩
